import Mathlib

/-!
Shallow embedding of the qiprog host library core: the USB master driver
(src/libqiprog/src/usb_master.c) and the discovery layer
(src/libqiprog/src/libqiprog.c).

The transport library (libusb) is modelled as an explicit oracle; every
operation additionally returns the list of transport interactions it issued,
so that the absence of a transport call is a statable property.  Machine
integers are Nat with explicit reductions mod 2^w where the C code truncates.
-/

/-- Return codes of the library (enum qiprog_err).  The enum lives in a header
outside src/; the four values used by the two source files are modelled. -/
inductive QiprogErr
  | success
  | err
  | err_arg
  | err_malloc
  deriving DecidableEq, Repr

/-- Modelled from the spec: the fixed vendor id of the programmer family
signature (the constant USB_VID_OPENMOKO lives in a header outside src/;
the exact numeric value is irrelevant to the claims). -/
def USB_VID_OPENMOKO : Nat := 0x1d50

/-- Modelled from the spec: the fixed product id of the programmer family
signature (the constant USB_PID_OPENMOKO_VULTUREPROG lives in a header
outside src/). -/
def USB_PID_OPENMOKO_VULTUREPROG : Nat := 0x6076

/-- Modelled from the spec: fixed request codes, one per wire command.  The
numeric values live in a protocol header outside src/; distinct placeholder
values are used, and no claim depends on the exact numbers. -/
def QIPROG_GET_CAPABILITIES : Nat := 0x01

/-- Modelled from the spec: request code for SET_BUS. -/
def QIPROG_SET_BUS : Nat := 0x02

/-- Modelled from the spec: request code for READ_DEVICE_ID. -/
def QIPROG_READ_DEVICE_ID : Nat := 0x03

/-- Modelled from the spec: request code for SET_ADDRESS. -/
def QIPROG_SET_ADDRESS : Nat := 0x04

/-- Modelled from the spec: request code for READ8. -/
def QIPROG_READ8 : Nat := 0x05

/-- Modelled from the spec: request code for READ16. -/
def QIPROG_READ16 : Nat := 0x06

/-- Modelled from the spec: request code for READ32. -/
def QIPROG_READ32 : Nat := 0x07

/-- Modelled from the spec: request code for WRITE8. -/
def QIPROG_WRITE8 : Nat := 0x08

/-- Modelled from the spec: request code for WRITE16. -/
def QIPROG_WRITE16 : Nat := 0x09

/-- Modelled from the spec: request code for WRITE32. -/
def QIPROG_WRITE32 : Nat := 0x0a

/-!  Wire codec.  The functions le16_to_h, le32_to_h, h_to_le16, h_to_le32
are declared in qiprog_internal.h, which is outside src/; they are modelled
from the spec (section 4.1): pure conversions to and from little-endian byte
layout, independent of host endianness.  Bytes are Nat values below 256. -/

/-- Modelled from the spec: encode a 16-bit value as two little-endian
bytes. -/
def h_to_le16 (v : Nat) : List Nat :=
  [v % 256, v / 256 % 256]

/-- Modelled from the spec: encode a 32-bit value as four little-endian
bytes. -/
def h_to_le32 (v : Nat) : List Nat :=
  [v % 256, v / 256 % 256, v / 65536 % 256, v / 16777216 % 256]

/-- Modelled from the spec: decode two little-endian bytes into a 16-bit
value.  Reads at most two bytes from the front of the slice. -/
def le16_to_h (b : List Nat) : Nat :=
  b.getD 0 0 + 256 * b.getD 1 0

/-- Modelled from the spec: decode four little-endian bytes into a 32-bit
value.  Reads at most four bytes from the front of the slice. -/
def le32_to_h (b : List Nat) : Nat :=
  b.getD 0 0 + 256 * b.getD 1 0 + 65536 * b.getD 2 0 + 16777216 * b.getD 3 0

/-- One enumerated libusb device.  The only observation the source makes of
it is libusb_get_device_descriptor, which may fail; a failed descriptor
fetch is modelled as none. -/
structure LibusbDevice where
  descriptor : Option (Nat × Nat)
  deriving DecidableEq, Repr

/-- Private per-device context for USB devices (struct usb_master_priv,
usb_master.c lines 59-62).  handle = none models the NULL libusb handle of
an unopened device. -/
structure UsbMasterPriv where
  handle : Option Nat
  usb_dev : LibusbDevice
  deriving DecidableEq, Repr

/-- Tag naming the driver a device is bound to.  In C the device holds a
pointer to the driver vtable; the vtable contains function pointers, so the
binding is modelled as a tag.  The only driver compiled in is the USB master
driver. -/
inductive DriverTag
  | usb_master
  deriving DecidableEq, Repr

/-- One qiprog device (struct qiprog_device, header outside src/).  The two
fields the source files touch are the bound driver and the backend-private
state; priv = none models a NULL priv pointer. -/
structure QiprogDevice where
  drv : Option DriverTag
  priv : Option UsbMasterPriv
  deriving DecidableEq, Repr

/-- One synchronous control transfer request as handed to
libusb_control_transfer: request type, request code, the two 16-bit
parameter fields, the transfer length, the payload bytes sent (empty for
device-to-host transfers) and the timeout in ms. -/
structure ControlRequest where
  bmRequestType : Nat
  bRequest : Nat
  wValue : Nat
  wIndex : Nat
  wLength : Nat
  payload : List Nat
  timeout : Nat
  deriving DecidableEq, Repr

/-- Transport interactions a driver operation may issue. -/
inductive UsbEvent
  | openDev (d : LibusbDevice)
  | claimInterface (handle : Nat) (iface : Nat)
  | control (r : ControlRequest)
  deriving DecidableEq, Repr

/-- The libusb oracle: responses of the transport library to the calls the
driver makes.  openDevice returns a handle on success and none on failure;
claimResult is the libusb return code of libusb_claim_interface; respond
returns the libusb return code of libusb_control_transfer together with the
bytes the transfer placed into the receive buffer. -/
structure Transport where
  openDevice : LibusbDevice → Option Nat
  claimResult : Nat → Int
  respond : ControlRequest → Int × List Nat

/-- Capabilities value object (struct qiprog_capabilities, header outside
src/; field set and order modelled from the spec, section 4.1: u32
bus_master, u16 instruction_set, u32 max_direct_data, ten u16 voltages). -/
structure QiprogCapabilities where
  bus_master : Nat
  instruction_set : Nat
  max_direct_data : Nat
  voltages : List Nat
  deriving DecidableEq, Repr

/-- One chip-id slot (struct qiprog_chip_id, header outside src/; field set
modelled from the spec, section 4.1: u8 method, u16 vendor id, u32 device
id). -/
structure QiprogChipId where
  id_method : Nat
  vendor_id : Nat
  device_id : Nat
  deriving DecidableEq, Repr

/-- Modelled from the spec: the capabilities wire payload is packed with no
padding, so its size is 4 + 2 + 4 + 10 * 2 = 30 bytes; this is the
sizeof(struct qiprog_capabilities) the source passes as transfer length. -/
def capsPayloadSize : Nat := 30

/-- Modelled from the spec: one chip-id wire entry is packed, 1 + 2 + 4 = 7
bytes; the source requests sizeof(struct qiprog_chip_id) * 9 bytes. -/
def chipIdSize : Nat := 7

/-- Modelled from the spec: the address-range wire payload is two u32
fields, 8 bytes (sizeof(struct qiprog_address)). -/
def addrPayloadSize : Nat := 8

/-- QiProg driver dev_open member (usb_master.c lines 159-183).  Returns the
status, the transport calls issued, and the resulting device state (the C
function mutates priv->handle through the device pointer). -/
def dev_open (tr : Transport) (dev : Option QiprogDevice) :
    QiprogErr × List UsbEvent × Option QiprogDevice :=
  match dev with
  | none => (.err_arg, [], none)
  | some d =>
    match d.priv with
    | none => (.err_arg, [], some d)
    | some priv =>
      match tr.openDevice priv.usb_dev with
      | none => (.err, [.openDev priv.usb_dev], some d)
      | some h =>
        let d' : QiprogDevice :=
          { d with priv := some { priv with handle := some h } }
        if tr.claimResult h ≠ 0 then
          (.err, [.openDev priv.usb_dev, .claimInterface h 0], some d')
        else
          (.success, [.openDev priv.usb_dev, .claimInterface h 0], some d')

/-- The control request issued by get_capabilities (usb_master.c lines
201-203): request type 0xc0 (device to host), no parameters, length
sizeof(struct qiprog_capabilities). -/
def capsRequest : ControlRequest :=
  { bmRequestType := 0xc0, bRequest := QIPROG_GET_CAPABILITIES,
    wValue := 0, wIndex := 0, wLength := capsPayloadSize,
    payload := [], timeout := 3000 }

/-- QiProg driver get_capabilities member (usb_master.c lines 188-218).
After a successful transfer every multi-byte field is decoded from the
little-endian receive buffer: bus_master at offset 0 (u32),
instruction_set at offset 4 (u16), max_direct_data at offset 6 (u32) and
the ten voltages at offsets 10, 12, ..., 28 (u16 each). -/
def get_capabilities (tr : Transport) (dev : Option QiprogDevice) :
    QiprogErr × List UsbEvent × Option QiprogCapabilities :=
  match dev with
  | none => (.err_arg, [], none)
  | some d =>
    match d.priv with
    | none => (.err_arg, [], none)
    | some _ =>
      let (ret, buf) := tr.respond capsRequest
      if ret < 0 then
        (.err, [.control capsRequest], none)
      else
        (.success, [.control capsRequest], some
          { bus_master := le32_to_h buf,
            instruction_set := le16_to_h (buf.drop 4),
            max_direct_data := le32_to_h (buf.drop 6),
            voltages := (List.range 10).map
              (fun i => le16_to_h (buf.drop (10 + 2 * i))) })

/-- QiProg driver set_bus member (usb_master.c lines 220-251).  A zero bus
selector is rejected before any transfer; otherwise the selector is split
into the two 16-bit parameter fields (wValue = bus >> 16, wIndex = bus and
0xffff, both truncated to 16 bits by the uint16_t assignment) and a
zero-length host-to-device transfer is issued. -/
def set_bus (tr : Transport) (dev : Option QiprogDevice) (bus : Nat) :
    QiprogErr × List UsbEvent :=
  match dev with
  | none => (.err_arg, [])
  | some d =>
    match d.priv with
    | none => (.err_arg, [])
    | some _ =>
      if bus = 0 then (.err_arg, [])
      else
        let req : ControlRequest :=
          { bmRequestType := 0x40, bRequest := QIPROG_SET_BUS,
            wValue := bus / 65536 % 65536, wIndex := bus % 65536,
            wLength := 0, payload := [], timeout := 3000 }
        let (ret, _) := tr.respond req
        if ret < 0 then (.err, [.control req])
        else (.success, [.control req])

/-- The control request issued by read_chip_id (usb_master.c lines
269-271). -/
def chipIdRequest : ControlRequest :=
  { bmRequestType := 0xc0, bRequest := QIPROG_READ_DEVICE_ID,
    wValue := 0, wIndex := 0, wLength := chipIdSize * 9,
    payload := [], timeout := 3000 }

/-- QiProg driver read_chip_id member (usb_master.c lines 256-286).  Each of
the nine 7-byte entries is decoded from the little-endian buffer. -/
def read_chip_id (tr : Transport) (dev : Option QiprogDevice) :
    QiprogErr × List UsbEvent × Option (List QiprogChipId) :=
  match dev with
  | none => (.err_arg, [], none)
  | some d =>
    match d.priv with
    | none => (.err_arg, [], none)
    | some _ =>
      let (ret, buf) := tr.respond chipIdRequest
      if ret < 0 then
        (.err, [.control chipIdRequest], none)
      else
        (.success, [.control chipIdRequest], some
          ((List.range 9).map (fun i =>
            { id_method := buf.getD (7 * i) 0,
              vendor_id := le16_to_h (buf.drop (7 * i + 1)),
              device_id := le32_to_h (buf.drop (7 * i + 3)) })))

/-- The control request issued by read8 for a given address (usb_master.c
lines 305-312): wValue carries the upper 16 bits of the address, wIndex the
lower 16 bits, both truncated by the uint16_t assignment. -/
def read8Request (addr : Nat) : ControlRequest :=
  { bmRequestType := 0xc0, bRequest := QIPROG_READ8,
    wValue := addr / 65536 % 65536, wIndex := addr % 65536,
    wLength := 1, payload := [], timeout := 3000 }

/-- QiProg driver read8 member (usb_master.c lines 293-319). -/
def read8 (tr : Transport) (dev : Option QiprogDevice) (addr : Nat) :
    QiprogErr × List UsbEvent × Option Nat :=
  match dev with
  | none => (.err_arg, [], none)
  | some d =>
    match d.priv with
    | none => (.err_arg, [], none)
    | some _ =>
      let (ret, buf) := tr.respond (read8Request addr)
      if ret < 0 then (.err, [.control (read8Request addr)], none)
      else (.success, [.control (read8Request addr)], some (buf.getD 0 0))

/-- The control request issued by read16 (usb_master.c lines 337-344). -/
def read16Request (addr : Nat) : ControlRequest :=
  { bmRequestType := 0xc0, bRequest := QIPROG_READ16,
    wValue := addr / 65536 % 65536, wIndex := addr % 65536,
    wLength := 2, payload := [], timeout := 3000 }

/-- QiProg driver read16 member (usb_master.c lines 324-354): the received
bytes are decoded little-endian. -/
def read16 (tr : Transport) (dev : Option QiprogDevice) (addr : Nat) :
    QiprogErr × List UsbEvent × Option Nat :=
  match dev with
  | none => (.err_arg, [], none)
  | some d =>
    match d.priv with
    | none => (.err_arg, [], none)
    | some _ =>
      let (ret, buf) := tr.respond (read16Request addr)
      if ret < 0 then (.err, [.control (read16Request addr)], none)
      else (.success, [.control (read16Request addr)], some (le16_to_h buf))

/-- The control request issued by read32 (usb_master.c lines 372-379). -/
def read32Request (addr : Nat) : ControlRequest :=
  { bmRequestType := 0xc0, bRequest := QIPROG_READ32,
    wValue := addr / 65536 % 65536, wIndex := addr % 65536,
    wLength := 4, payload := [], timeout := 3000 }

/-- QiProg driver read32 member (usb_master.c lines 359-389): the received
bytes are decoded little-endian. -/
def read32 (tr : Transport) (dev : Option QiprogDevice) (addr : Nat) :
    QiprogErr × List UsbEvent × Option Nat :=
  match dev with
  | none => (.err_arg, [], none)
  | some d =>
    match d.priv with
    | none => (.err_arg, [], none)
    | some _ =>
      let (ret, buf) := tr.respond (read32Request addr)
      if ret < 0 then (.err, [.control (read32Request addr)], none)
      else (.success, [.control (read32Request addr)], some (le32_to_h buf))

/-- The control request issued by write8 (usb_master.c lines 407-414): the
single data byte is the payload (the C caller passes a uint8_t, modelled by
the reduction mod 256 at the call boundary). -/
def write8Request (addr : Nat) (data : Nat) : ControlRequest :=
  { bmRequestType := 0x40, bRequest := QIPROG_WRITE8,
    wValue := addr / 65536 % 65536, wIndex := addr % 65536,
    wLength := 1, payload := [data % 256], timeout := 3000 }

/-- QiProg driver write8 member (usb_master.c lines 396-421). -/
def write8 (tr : Transport) (dev : Option QiprogDevice) (addr : Nat)
    (data : Nat) : QiprogErr × List UsbEvent :=
  match dev with
  | none => (.err_arg, [])
  | some d =>
    match d.priv with
    | none => (.err_arg, [])
    | some _ =>
      let (ret, _) := tr.respond (write8Request addr data)
      if ret < 0 then (.err, [.control (write8Request addr data)])
      else (.success, [.control (write8Request addr data)])

/-- The control request issued by write16 (usb_master.c lines 439-449): the
data is encoded little-endian into the payload by h_to_le16. -/
def write16Request (addr : Nat) (data : Nat) : ControlRequest :=
  { bmRequestType := 0x40, bRequest := QIPROG_WRITE16,
    wValue := addr / 65536 % 65536, wIndex := addr % 65536,
    wLength := 2, payload := h_to_le16 data, timeout := 3000 }

/-- QiProg driver write16 member (usb_master.c lines 426-456). -/
def write16 (tr : Transport) (dev : Option QiprogDevice) (addr : Nat)
    (data : Nat) : QiprogErr × List UsbEvent :=
  match dev with
  | none => (.err_arg, [])
  | some d =>
    match d.priv with
    | none => (.err_arg, [])
    | some _ =>
      let (ret, _) := tr.respond (write16Request addr data)
      if ret < 0 then (.err, [.control (write16Request addr data)])
      else (.success, [.control (write16Request addr data)])

/-- The control request issued by write32 (usb_master.c lines 474-484): the
data is encoded little-endian into the payload by h_to_le32. -/
def write32Request (addr : Nat) (data : Nat) : ControlRequest :=
  { bmRequestType := 0x40, bRequest := QIPROG_WRITE32,
    wValue := addr / 65536 % 65536, wIndex := addr % 65536,
    wLength := 4, payload := h_to_le32 data, timeout := 3000 }

/-- QiProg driver write32 member (usb_master.c lines 461-491). -/
def write32 (tr : Transport) (dev : Option QiprogDevice) (addr : Nat)
    (data : Nat) : QiprogErr × List UsbEvent :=
  match dev with
  | none => (.err_arg, [])
  | some d =>
    match d.priv with
    | none => (.err_arg, [])
    | some _ =>
      let (ret, _) := tr.respond (write32Request addr data)
      if ret < 0 then (.err, [.control (write32Request addr data)])
      else (.success, [.control (write32Request addr data)])

/-- The control request issued by set_address (usb_master.c lines 512-518):
no parameter fields; the payload is the packed address-range struct, start
then end, each encoded little-endian by h_to_le32. -/
def setAddressRequest (start : Nat) (end_addr : Nat) : ControlRequest :=
  { bmRequestType := 0x40, bRequest := QIPROG_SET_ADDRESS,
    wValue := 0, wIndex := 0, wLength := addrPayloadSize,
    payload := h_to_le32 start ++ h_to_le32 end_addr, timeout := 3000 }

/-- QiProg driver set_address member (usb_master.c lines 496-525). -/
def set_address (tr : Transport) (dev : Option QiprogDevice) (start : Nat)
    (end_addr : Nat) : QiprogErr × List UsbEvent :=
  match dev with
  | none => (.err_arg, [])
  | some d =>
    match d.priv with
    | none => (.err_arg, [])
    | some _ =>
      let (ret, _) := tr.respond (setAddressRequest start end_addr)
      if ret < 0 then (.err, [.control (setAddressRequest start end_addr)])
      else (.success, [.control (setAddressRequest start end_addr)])

/-- Decide if a given USB device is a QiProg device (is_interesting,
usb_master.c lines 102-119): a failed descriptor fetch is not interesting;
otherwise the vendor and product ids must both equal the fixed OpenMoko
VultureProg signature. -/
def is_interesting (dev : LibusbDevice) : Bool :=
  match dev.descriptor with
  | none => false
  | some (v, p) => v == USB_VID_OPENMOKO && p == USB_PID_OPENMOKO_VULTUREPROG

/-- Helper to create a new USB QiProg device (new_usb_prog, usb_master.c
lines 67-97).  qiprog_new_device and the priv malloc live outside src/ and
may fail; their joint success is the oracle bit ok (on any failure the C
function frees what it allocated and returns NULL).  On success the device
is bound to the USB master driver and its libusb handle is left NULL until
dev_open. -/
def new_usb_prog (ok : Bool) (libusb_dev : LibusbDevice) :
    Option QiprogDevice :=
  if ok then
    some { drv := some .usb_master,
           priv := some { handle := none, usb_dev := libusb_dev } }
  else none

/-- The libusb world the scan observes: devices = none models a negative
count from libusb_get_device_list (enumeration failure); allocOk n tells
whether the n-th call to new_usb_prog succeeds. -/
structure UsbEnv where
  devices : Option (List LibusbDevice)
  allocOk : Nat → Bool

/-- A qiprog context (struct qiprog_context, header outside src/): it owns
the libusb host context; the field is opaque to the two source files
modelled here. -/
structure Context where
  libusb_host_ctx : Nat
  deriving DecidableEq, Repr

/-- The enumeration loop of scan (usb_master.c lines 139-150): walk the
enumerated devices in order; for each interesting one construct a device
(consuming one allocation-oracle slot) and append it to the list; a failed
construction returns QIPROG_ERR_MALLOC at once, keeping what was already
appended. -/
def scanLoop (env : UsbEnv) (devs : List LibusbDevice) (n : Nat)
    (qi_list : List QiprogDevice) : QiprogErr × List QiprogDevice :=
  match devs with
  | [] => (.success, qi_list)
  | d :: rest =>
    if is_interesting d then
      match new_usb_prog (env.allocOk n) d with
      | none => (.err_malloc, qi_list)
      | some qi_dev => scanLoop env rest (n + 1) (qi_list ++ [qi_dev])
    else scanLoop env rest n qi_list

/-- QiProg driver scan member (usb_master.c lines 124-154).  A negative
device count from libusb_get_device_list is treated as no devices and
returns QIPROG_SUCCESS with nothing appended. -/
def scan (env : UsbEnv) (_ctx : Context) (qi_list : List QiprogDevice) :
    QiprogErr × List QiprogDevice :=
  match env.devices with
  | none => (.success, qi_list)
  | some devs => scanLoop env devs 0 qi_list

/-- The driver vtable (struct qiprog_driver, header outside src/).  Each
member is a function pointer; a missing member is none.  Only the scan
member is consulted by the discovery layer in libqiprog.c; the protocol
members carry the types of the corresponding operations. -/
structure QiprogDriver where
  scan : Option (Context → List QiprogDevice → QiprogErr × List QiprogDevice)
  dev_open : Option (Option QiprogDevice →
    QiprogErr × List UsbEvent × Option QiprogDevice)
  set_bus : Option (Option QiprogDevice → Nat → QiprogErr × List UsbEvent)
  get_capabilities : Option (Option QiprogDevice →
    QiprogErr × List UsbEvent × Option QiprogCapabilities)
  read_chip_id : Option (Option QiprogDevice →
    QiprogErr × List UsbEvent × Option (List QiprogChipId))
  set_address : Option (Option QiprogDevice → Nat → Nat →
    QiprogErr × List UsbEvent)
  read8 : Option (Option QiprogDevice → Nat → QiprogErr × List UsbEvent × Option Nat)
  read16 : Option (Option QiprogDevice → Nat → QiprogErr × List UsbEvent × Option Nat)
  read32 : Option (Option QiprogDevice → Nat → QiprogErr × List UsbEvent × Option Nat)
  write8 : Option (Option QiprogDevice → Nat → Nat → QiprogErr × List UsbEvent)
  write16 : Option (Option QiprogDevice → Nat → Nat → QiprogErr × List UsbEvent)
  write32 : Option (Option QiprogDevice → Nat → Nat → QiprogErr × List UsbEvent)

/-- The actual USB host driver structure (qiprog_usb_master_drv,
usb_master.c lines 530-543): every member is populated.  The libusb oracles
are closed over, since in C they are the ambient libusb library state. -/
def qiprog_usb_master_drv (env : UsbEnv) (tr : Transport) : QiprogDriver :=
  { scan := some (scan env),
    dev_open := some (dev_open tr),
    set_bus := some (set_bus tr),
    get_capabilities := some (get_capabilities tr),
    read_chip_id := some (read_chip_id tr),
    set_address := some (set_address tr),
    read8 := some (read8 tr),
    read16 := some (read16 tr),
    read32 := some (read32 tr),
    write8 := some (write8 tr),
    write16 := some (write16 tr),
    write32 := some (write32 tr) }

/-- NULL-terminated list of drivers compiled in (driver_list, libqiprog.c
lines 73-78): with CONFIG_DRIVER_USB_MASTER set it holds exactly the USB
master driver; the NULL terminator is the end of the Lean list. -/
def driver_list (env : UsbEnv) (tr : Transport) : List QiprogDriver :=
  [qiprog_usb_master_drv env tr]

/-- The backend iteration loop of qiprog_get_device_list (libqiprog.c lines
184-194): walk the driver list in order until the NULL terminator; a driver
with a NULL scan member is skipped; otherwise its scan is invoked on the
growing list and its return status is discarded. -/
def get_device_list_loop (ctx : Context) (drivers : List QiprogDriver)
    (qi_list : List QiprogDevice) : List QiprogDevice :=
  match drivers with
  | [] => qi_list
  | drv :: rest =>
    match drv.scan with
    | none => get_device_list_loop ctx rest qi_list
    | some s => get_device_list_loop ctx rest (s ctx qi_list).2

/-- Get a list of all available QiProg devices (qiprog_get_device_list,
libqiprog.c lines 169-198).  A NULL context returns 0 before touching
anything; a failed dev_list_init (the registry initialisation, outside
src/, whose possible allocation failure is the oracle bit initOk) returns
0; in both cases the output list parameter is never written, modelled as
none.  Otherwise every compiled-in driver is scanned and the function
returns the number of devices plus the written-out list. -/
def qiprog_get_device_list (env : UsbEnv) (tr : Transport) (initOk : Bool)
    (ctx : Option Context) : Nat × Option (List QiprogDevice) :=
  match ctx with
  | none => (0, none)
  | some c =>
    if !initOk then (0, none)
    else
      let qi_list := get_device_list_loop c (driver_list env tr) []
      (qi_list.length, some qi_list)

/-! Helper lemmas about the wire codec. -/

theorem le16_h_to_le16 (v : Nat) (rest : List Nat) :
    le16_to_h (h_to_le16 v ++ rest) = v % 65536 := by
  simp [le16_to_h, h_to_le16]
  omega

theorem le32_h_to_le32 (v : Nat) (rest : List Nat) :
    le32_to_h (h_to_le32 v ++ rest) = v % 4294967296 := by
  simp [le32_to_h, h_to_le32]
  omega

theorem read8_events (tr : Transport) (dv : Option DriverTag)
    (p : UsbMasterPriv) (addr : Nat) :
    (read8 tr (some ⟨dv, some p⟩) addr).2.1 = [.control (read8Request addr)] := by
  rcases h : tr.respond (read8Request addr) with ⟨ret, buf⟩
  simp only [read8, h]
  split <;> rfl

theorem read16_events (tr : Transport) (dv : Option DriverTag)
    (p : UsbMasterPriv) (addr : Nat) :
    (read16 tr (some ⟨dv, some p⟩) addr).2.1 = [.control (read16Request addr)] := by
  rcases h : tr.respond (read16Request addr) with ⟨ret, buf⟩
  simp only [read16, h]
  split <;> rfl

theorem read32_events (tr : Transport) (dv : Option DriverTag)
    (p : UsbMasterPriv) (addr : Nat) :
    (read32 tr (some ⟨dv, some p⟩) addr).2.1 = [.control (read32Request addr)] := by
  rcases h : tr.respond (read32Request addr) with ⟨ret, buf⟩
  simp only [read32, h]
  split <;> rfl

theorem write8_events (tr : Transport) (dv : Option DriverTag)
    (p : UsbMasterPriv) (addr data : Nat) :
    (write8 tr (some ⟨dv, some p⟩) addr data).2
      = [.control (write8Request addr data)] := by
  rcases h : tr.respond (write8Request addr data) with ⟨ret, buf⟩
  simp only [write8, h]
  split <;> rfl

theorem write16_events (tr : Transport) (dv : Option DriverTag)
    (p : UsbMasterPriv) (addr data : Nat) :
    (write16 tr (some ⟨dv, some p⟩) addr data).2
      = [.control (write16Request addr data)] := by
  rcases h : tr.respond (write16Request addr data) with ⟨ret, buf⟩
  simp only [write16, h]
  split <;> rfl

theorem write32_events (tr : Transport) (dv : Option DriverTag)
    (p : UsbMasterPriv) (addr data : Nat) :
    (write32 tr (some ⟨dv, some p⟩) addr data).2
      = [.control (write32Request addr data)] := by
  rcases h : tr.respond (write32Request addr data) with ⟨ret, buf⟩
  simp only [write32, h]
  split <;> rfl

/-- C2: every operation of the USB driver capability set (dev_open,
get_capabilities, set_bus, read_chip_id, set_address, read8, read16,
read32, write8, write16, write32) called with a null device, or with a
device whose backend-private state is null, returns QIPROG_ERR_ARG,
issues no transport call, and leaves outputs and device state
unchanged. -/
theorem C2_null_arg_guards (tr : Transport) (dv : Option DriverTag)
    (bus addr data start end_addr : Nat) :
    (dev_open tr none = (.err_arg, [], none)
      ∧ dev_open tr (some ⟨dv, none⟩) = (.err_arg, [], some ⟨dv, none⟩))
  ∧ (get_capabilities tr none = (.err_arg, [], none)
      ∧ get_capabilities tr (some ⟨dv, none⟩) = (.err_arg, [], none))
  ∧ (set_bus tr none bus = (.err_arg, [])
      ∧ set_bus tr (some ⟨dv, none⟩) bus = (.err_arg, []))
  ∧ (read_chip_id tr none = (.err_arg, [], none)
      ∧ read_chip_id tr (some ⟨dv, none⟩) = (.err_arg, [], none))
  ∧ (set_address tr none start end_addr = (.err_arg, [])
      ∧ set_address tr (some ⟨dv, none⟩) start end_addr = (.err_arg, []))
  ∧ (read8 tr none addr = (.err_arg, [], none)
      ∧ read8 tr (some ⟨dv, none⟩) addr = (.err_arg, [], none))
  ∧ (read16 tr none addr = (.err_arg, [], none)
      ∧ read16 tr (some ⟨dv, none⟩) addr = (.err_arg, [], none))
  ∧ (read32 tr none addr = (.err_arg, [], none)
      ∧ read32 tr (some ⟨dv, none⟩) addr = (.err_arg, [], none))
  ∧ (write8 tr none addr data = (.err_arg, [])
      ∧ write8 tr (some ⟨dv, none⟩) addr data = (.err_arg, []))
  ∧ (write16 tr none addr data = (.err_arg, [])
      ∧ write16 tr (some ⟨dv, none⟩) addr data = (.err_arg, []))
  ∧ (write32 tr none addr data = (.err_arg, [])
      ∧ write32 tr (some ⟨dv, none⟩) addr data = (.err_arg, [])) :=
  ⟨⟨rfl, rfl⟩, ⟨rfl, rfl⟩, ⟨rfl, rfl⟩, ⟨rfl, rfl⟩, ⟨rfl, rfl⟩, ⟨rfl, rfl⟩,
   ⟨rfl, rfl⟩, ⟨rfl, rfl⟩, ⟨rfl, rfl⟩, ⟨rfl, rfl⟩, ⟨rfl, rfl⟩⟩

/-- C3: every 32-bit address handed to read8, read16, read32, write8,
write16 or write32 on a valid device is carried by the single issued
control transfer with the upper 16 bits of the address in wValue and the
lower 16 bits in wIndex. -/
theorem C3_address_split (tr : Transport) (dv : Option DriverTag)
    (p : UsbMasterPriv) (addr data : Nat) (ha : addr < 4294967296) :
    ((read8 tr (some ⟨dv, some p⟩) addr).2.1 = [.control (read8Request addr)]
      ∧ (read8Request addr).wValue = addr / 65536
      ∧ (read8Request addr).wIndex = addr % 65536)
  ∧ ((read16 tr (some ⟨dv, some p⟩) addr).2.1 = [.control (read16Request addr)]
      ∧ (read16Request addr).wValue = addr / 65536
      ∧ (read16Request addr).wIndex = addr % 65536)
  ∧ ((read32 tr (some ⟨dv, some p⟩) addr).2.1 = [.control (read32Request addr)]
      ∧ (read32Request addr).wValue = addr / 65536
      ∧ (read32Request addr).wIndex = addr % 65536)
  ∧ ((write8 tr (some ⟨dv, some p⟩) addr data).2
        = [.control (write8Request addr data)]
      ∧ (write8Request addr data).wValue = addr / 65536
      ∧ (write8Request addr data).wIndex = addr % 65536)
  ∧ ((write16 tr (some ⟨dv, some p⟩) addr data).2
        = [.control (write16Request addr data)]
      ∧ (write16Request addr data).wValue = addr / 65536
      ∧ (write16Request addr data).wIndex = addr % 65536)
  ∧ ((write32 tr (some ⟨dv, some p⟩) addr data).2
        = [.control (write32Request addr data)]
      ∧ (write32Request addr data).wValue = addr / 65536
      ∧ (write32Request addr data).wIndex = addr % 65536) := by
  have hv : addr / 65536 % 65536 = addr / 65536 := by omega
  exact ⟨⟨read8_events tr dv p addr, hv, rfl⟩,
         ⟨read16_events tr dv p addr, hv, rfl⟩,
         ⟨read32_events tr dv p addr, hv, rfl⟩,
         ⟨write8_events tr dv p addr data, hv, rfl⟩,
         ⟨write16_events tr dv p addr data, hv, rfl⟩,
         ⟨write32_events tr dv p addr data, hv, rfl⟩⟩

/-- C3 witness: at address 0x12345678 the high field is 0x1234 and the low
field is 0x5678. -/
theorem C3_address_split_witness :
    (0x12345678 < 4294967296
      ∧ (read8Request 0x12345678).wValue = 0x1234
      ∧ (read8Request 0x12345678).wIndex = 0x5678)
    ∧ ((read8 { openDevice := fun _ => some 1, claimResult := fun _ => 0,
                respond := fun _ => (1, [0xab]) }
          (some ⟨some .usb_master, some ⟨none, ⟨some (0x1d50, 0x6076)⟩⟩⟩)
          0x12345678).2.1 = [.control (read8Request 0x12345678)]) := by
  have h := C3_address_split
    { openDevice := fun _ => some 1, claimResult := fun _ => 0,
      respond := fun _ => (1, [0xab]) }
    (some .usb_master) ⟨none, ⟨some (0x1d50, 0x6076)⟩⟩ 0x12345678 0
    (by decide)
  exact ⟨⟨by decide, by decide, by decide⟩, h.1.1⟩

theorem le16_decode_encode (v : Nat) : le16_to_h (h_to_le16 v) = v % 65536 := by
  simp [le16_to_h, h_to_le16]
  omega

theorem le32_decode_encode (v : Nat) :
    le32_to_h (h_to_le32 v) = v % 4294967296 := by
  simp [le32_to_h, h_to_le32]
  omega

/-- C4: set_address on a valid device issues one host-to-device transfer
whose payload is the little-endian encoding of start followed by the
little-endian encoding of end: the first 4 bytes decode (LE32) to start and
the next 4 bytes decode to end. -/
theorem C4_set_address_payload (tr : Transport) (dv : Option DriverTag)
    (p : UsbMasterPriv) (start end_addr : Nat)
    (hs : start < 4294967296) (he : end_addr < 4294967296) :
    (set_address tr (some ⟨dv, some p⟩) start end_addr).2
      = [.control (setAddressRequest start end_addr)]
  ∧ (setAddressRequest start end_addr).payload
      = h_to_le32 start ++ h_to_le32 end_addr
  ∧ ((setAddressRequest start end_addr).payload).take 4 = h_to_le32 start
  ∧ ((setAddressRequest start end_addr).payload).drop 4 = h_to_le32 end_addr
  ∧ le32_to_h ((setAddressRequest start end_addr).payload) = start
  ∧ le32_to_h (((setAddressRequest start end_addr).payload).drop 4)
      = end_addr := by
  refine ⟨?_, rfl, rfl, rfl, ?_, ?_⟩
  · rcases h : tr.respond (setAddressRequest start end_addr) with ⟨ret, buf⟩
    simp only [set_address, h]
    split <;> rfl
  · show le32_to_h (h_to_le32 start ++ h_to_le32 end_addr) = start
    rw [le32_h_to_le32]
    omega
  · show le32_to_h (h_to_le32 end_addr) = end_addr
    rw [le32_decode_encode]
    omega

/-- C4 witness: set_address with start 0x1000 and end 0x2000 produces the
payload whose first 4 bytes decode to 0x1000 and next 4 bytes to 0x2000. -/
theorem C4_set_address_payload_witness :
    0x1000 < 4294967296 ∧ 0x2000 < 4294967296
  ∧ le32_to_h ((setAddressRequest 0x1000 0x2000).payload) = 0x1000
  ∧ le32_to_h (((setAddressRequest 0x1000 0x2000).payload).drop 4) = 0x2000 :=
  have h := C4_set_address_payload
    { openDevice := fun _ => some 1, claimResult := fun _ => 0,
      respond := fun _ => (0, []) }
    (some .usb_master) ⟨none, ⟨some (0x1d50, 0x6076)⟩⟩ 0x1000 0x2000
    (by decide) (by decide)
  ⟨by decide, by decide, h.2.2.2.2.1, h.2.2.2.2.2⟩

/-- C5: set_bus with a zero bus selector on a valid device returns
QIPROG_ERR_ARG and issues no transfer; with a nonzero 32-bit selector it
issues exactly one transfer carrying the upper 16 bits of the selector in
wValue and the lower 16 bits in wIndex, with no payload. -/
theorem C5_set_bus_zero_guard (tr : Transport) (dv : Option DriverTag)
    (p : UsbMasterPriv) (bus : Nat) (hb : bus ≠ 0) (hbus : bus < 4294967296) :
    set_bus tr (some ⟨dv, some p⟩) 0 = (.err_arg, [])
  ∧ ∃ req : ControlRequest,
      (set_bus tr (some ⟨dv, some p⟩) bus).2 = [.control req]
      ∧ req.wValue = bus / 65536 ∧ req.wIndex = bus % 65536
      ∧ req.payload = [] ∧ req.wLength = 0 := by
  refine ⟨rfl,
    ⟨{ bmRequestType := 0x40, bRequest := QIPROG_SET_BUS,
       wValue := bus / 65536 % 65536, wIndex := bus % 65536,
       wLength := 0, payload := [], timeout := 3000 }, ?_,
       by show bus / 65536 % 65536 = bus / 65536; omega, rfl, rfl, rfl⟩⟩
  rcases h : tr.respond
      { bmRequestType := 0x40, bRequest := QIPROG_SET_BUS,
        wValue := bus / 65536 % 65536, wIndex := bus % 65536,
        wLength := 0, payload := [], timeout := 3000 } with ⟨ret, buf⟩
  simp only [set_bus, if_neg hb, h]
  split <;> rfl

/-- C5 witness: the zero-selector guard and the field splitting evaluated at
the concrete bus selector 0x00050003. -/
theorem C5_set_bus_zero_guard_witness :
    set_bus
      { openDevice := fun _ => some 1, claimResult := fun _ => 0,
        respond := fun _ => (0, []) }
      (some ⟨some .usb_master, some ⟨none, ⟨some (0x1d50, 0x6076)⟩⟩⟩) 0
      = (.err_arg, [])
  ∧ ∃ req : ControlRequest,
      (set_bus
        { openDevice := fun _ => some 1, claimResult := fun _ => 0,
          respond := fun _ => (0, []) }
        (some ⟨some .usb_master, some ⟨none, ⟨some (0x1d50, 0x6076)⟩⟩⟩)
        0x00050003).2 = [.control req]
      ∧ req.wValue = 0x00050003 / 65536 ∧ req.wIndex = 0x00050003 % 65536
      ∧ req.payload = [] ∧ req.wLength = 0 :=
  C5_set_bus_zero_guard
    { openDevice := fun _ => some 1, claimResult := fun _ => 0,
      respond := fun _ => (0, []) }
    (some .usb_master) ⟨none, ⟨some (0x1d50, 0x6076)⟩⟩ 0x00050003
    (by decide) (by decide)

/-- C1: get_capabilities on a valid device, given a successful transfer
whose received payload is the little-endian encoding of bus_master (u32),
instruction_set (u16), max_direct_data (u32) and the ten voltages (u16
each), returns QIPROG_SUCCESS and a Capabilities struct holding exactly
those field values: every multi-byte field is decoded little-endian. -/
theorem C1_get_capabilities_decode (tr : Transport) (dv : Option DriverTag)
    (p : UsbMasterPriv) (ret : Int)
    (bm is2 mdd w0 w1 w2 w3 w4 w5 w6 w7 w8 w9 : Nat)
    (hbm : bm < 4294967296) (his : is2 < 65536) (hmdd : mdd < 4294967296)
    (h0 : w0 < 65536) (h1 : w1 < 65536) (h2 : w2 < 65536) (h3 : w3 < 65536)
    (h4 : w4 < 65536) (h5 : w5 < 65536) (h6 : w6 < 65536) (h7 : w7 < 65536)
    (h8 : w8 < 65536) (h9 : w9 < 65536)
    (hret : 0 ≤ ret)
    (hresp : tr.respond capsRequest = (ret,
      h_to_le32 bm ++ (h_to_le16 is2 ++ (h_to_le32 mdd ++ (h_to_le16 w0 ++
      (h_to_le16 w1 ++ (h_to_le16 w2 ++ (h_to_le16 w3 ++ (h_to_le16 w4 ++
      (h_to_le16 w5 ++ (h_to_le16 w6 ++ (h_to_le16 w7 ++ (h_to_le16 w8 ++
      h_to_le16 w9))))))))))))) :
    get_capabilities tr (some ⟨dv, some p⟩) =
      (.success, [.control capsRequest], some
        { bus_master := bm, instruction_set := is2, max_direct_data := mdd,
          voltages := [w0, w1, w2, w3, w4, w5, w6, w7, w8, w9] }) := by
  simp only [get_capabilities, hresp, if_neg (by omega : ¬ ret < 0)]
  refine congrArg (fun c => (QiprogErr.success, [UsbEvent.control capsRequest],
    some c)) ?_
  have e0 : le32_to_h (h_to_le32 bm ++ (h_to_le16 is2 ++ (h_to_le32 mdd ++
      (h_to_le16 w0 ++ (h_to_le16 w1 ++ (h_to_le16 w2 ++ (h_to_le16 w3 ++
      (h_to_le16 w4 ++ (h_to_le16 w5 ++ (h_to_le16 w6 ++ (h_to_le16 w7 ++
      (h_to_le16 w8 ++ h_to_le16 w9)))))))))))) = bm := by
    rw [le32_h_to_le32]; omega
  have e4 : le16_to_h (h_to_le16 is2 ++ (h_to_le32 mdd ++ (h_to_le16 w0 ++
      (h_to_le16 w1 ++ (h_to_le16 w2 ++ (h_to_le16 w3 ++ (h_to_le16 w4 ++
      (h_to_le16 w5 ++ (h_to_le16 w6 ++ (h_to_le16 w7 ++ (h_to_le16 w8 ++
      h_to_le16 w9))))))))))) = is2 := by
    rw [le16_h_to_le16]; omega
  have e6 : le32_to_h (h_to_le32 mdd ++ (h_to_le16 w0 ++ (h_to_le16 w1 ++
      (h_to_le16 w2 ++ (h_to_le16 w3 ++ (h_to_le16 w4 ++ (h_to_le16 w5 ++
      (h_to_le16 w6 ++ (h_to_le16 w7 ++ (h_to_le16 w8 ++
      h_to_le16 w9)))))))))) = mdd := by
    rw [le32_h_to_le32]; omega
  have v0 : le16_to_h (h_to_le16 w0 ++ (h_to_le16 w1 ++ (h_to_le16 w2 ++
      (h_to_le16 w3 ++ (h_to_le16 w4 ++ (h_to_le16 w5 ++ (h_to_le16 w6 ++
      (h_to_le16 w7 ++ (h_to_le16 w8 ++ h_to_le16 w9))))))))) = w0 := by
    rw [le16_h_to_le16]; omega
  have v1 : le16_to_h (h_to_le16 w1 ++ (h_to_le16 w2 ++ (h_to_le16 w3 ++
      (h_to_le16 w4 ++ (h_to_le16 w5 ++ (h_to_le16 w6 ++ (h_to_le16 w7 ++
      (h_to_le16 w8 ++ h_to_le16 w9)))))))) = w1 := by
    rw [le16_h_to_le16]; omega
  have v2 : le16_to_h (h_to_le16 w2 ++ (h_to_le16 w3 ++ (h_to_le16 w4 ++
      (h_to_le16 w5 ++ (h_to_le16 w6 ++ (h_to_le16 w7 ++ (h_to_le16 w8 ++
      h_to_le16 w9))))))) = w2 := by
    rw [le16_h_to_le16]; omega
  have v3 : le16_to_h (h_to_le16 w3 ++ (h_to_le16 w4 ++ (h_to_le16 w5 ++
      (h_to_le16 w6 ++ (h_to_le16 w7 ++ (h_to_le16 w8 ++
      h_to_le16 w9)))))) = w3 := by
    rw [le16_h_to_le16]; omega
  have v4 : le16_to_h (h_to_le16 w4 ++ (h_to_le16 w5 ++ (h_to_le16 w6 ++
      (h_to_le16 w7 ++ (h_to_le16 w8 ++ h_to_le16 w9))))) = w4 := by
    rw [le16_h_to_le16]; omega
  have v5 : le16_to_h (h_to_le16 w5 ++ (h_to_le16 w6 ++ (h_to_le16 w7 ++
      (h_to_le16 w8 ++ h_to_le16 w9)))) = w5 := by
    rw [le16_h_to_le16]; omega
  have v6 : le16_to_h (h_to_le16 w6 ++ (h_to_le16 w7 ++ (h_to_le16 w8 ++
      h_to_le16 w9))) = w6 := by
    rw [le16_h_to_le16]; omega
  have v7 : le16_to_h (h_to_le16 w7 ++ (h_to_le16 w8 ++ h_to_le16 w9))
      = w7 := by
    rw [le16_h_to_le16]; omega
  have v8 : le16_to_h (h_to_le16 w8 ++ h_to_le16 w9) = w8 := by
    rw [le16_h_to_le16]; omega
  have v9 : le16_to_h (h_to_le16 w9) = w9 := by
    rw [le16_decode_encode]; omega
  refine QiprogCapabilities.mk.injEq _ _ _ _ _ _ _ _ |>.mpr ?_ |> Eq.symm |> Eq.symm
  exact ⟨e0, e4, e6, by
    show List.map _ (List.range 10) = _
    rw [show List.range 10 = [0,1,2,3,4,5,6,7,8,9] from rfl]
    simp only [List.map_cons, List.map_nil]
    exact congrArg₂ List.cons v0 (congrArg₂ List.cons v1 (congrArg₂ List.cons
      v2 (congrArg₂ List.cons v3 (congrArg₂ List.cons v4 (congrArg₂ List.cons
      v5 (congrArg₂ List.cons v6 (congrArg₂ List.cons v7 (congrArg₂ List.cons
      v8 (congrArg₂ List.cons v9 rfl)))))))))⟩

/-- Concrete payload used to exercise the capabilities decode: bus_master 1,
instruction_set 2, max_direct_data 64, voltages 3300 and 1800 followed by
eight zero slots, each field encoded little-endian. -/
def capsDemoPayload : List Nat :=
  h_to_le32 1 ++ (h_to_le16 2 ++ (h_to_le32 64 ++ (h_to_le16 3300 ++
  (h_to_le16 1800 ++ (h_to_le16 0 ++ (h_to_le16 0 ++ (h_to_le16 0 ++
  (h_to_le16 0 ++ (h_to_le16 0 ++ (h_to_le16 0 ++ (h_to_le16 0 ++
  h_to_le16 0)))))))))))

/-- A transport whose every control transfer succeeds and returns the
capabilities demo payload. -/
def capsDemoTransport : Transport :=
  { openDevice := fun _ => some 1, claimResult := fun _ => 0,
    respond := fun _ => (0, capsDemoPayload) }

/-- C1 witness: the capabilities decode evaluated on the concrete payload of
the claim, bus_master 1, instruction_set 2, max_direct_data 64. -/
theorem C1_get_capabilities_decode_witness :
    get_capabilities capsDemoTransport
      (some ⟨some .usb_master, some ⟨none, ⟨some (0x1d50, 0x6076)⟩⟩⟩)
      = (.success, [.control capsRequest], some
        { bus_master := 1, instruction_set := 2, max_direct_data := 64,
          voltages := [3300, 1800, 0, 0, 0, 0, 0, 0, 0, 0] }) :=
  C1_get_capabilities_decode capsDemoTransport (some .usb_master)
    ⟨none, ⟨some (0x1d50, 0x6076)⟩⟩ 0 1 2 64 3300 1800 0 0 0 0 0 0 0 0
    (by decide) (by decide) (by decide) (by decide) (by decide) (by decide)
    (by decide) (by decide) (by decide) (by decide) (by decide) (by decide)
    (by decide) (by decide) rfl

/-- The device scan constructs for a matched libusb device: bound to the USB
master driver, libusb handle left NULL. -/
def mkUsbDev (d : LibusbDevice) : QiprogDevice :=
  { drv := some .usb_master, priv := some { handle := none, usb_dev := d } }

theorem scanLoop_all_alloc (env : UsbEnv)
    (halloc : ∀ n, env.allocOk n = true) :
    ∀ (devs : List LibusbDevice) (n : Nat) (acc : List QiprogDevice),
      scanLoop env devs n acc
        = (.success, acc ++ (devs.filter is_interesting).map mkUsbDev) := by
  intro devs
  induction devs with
  | nil => intro n acc; simp [scanLoop]
  | cons d rest ih =>
    intro n acc
    by_cases h : is_interesting d
    · simp [scanLoop, h, new_usb_prog, halloc n, ih, List.filter_cons, mkUsbDev]
    · simp [scanLoop, h, ih, List.filter_cons]

/-- C8: when every allocation succeeds, the scan of the USB backend appends
to the list exactly one device per enumerated libusb device matching the
OpenMoko VultureProg signature, in enumeration order, each bound to the USB
master driver with its transport handle left NULL; finding zero matches
also returns QIPROG_SUCCESS. -/
theorem C8_scan_matches (env : UsbEnv) (c : Context)
    (devs : List LibusbDevice) (acc : List QiprogDevice)
    (hdevs : env.devices = some devs)
    (halloc : ∀ n, env.allocOk n = true) :
    scan env c acc
      = (.success, acc ++ (devs.filter is_interesting).map mkUsbDev) := by
  simp only [scan, hdevs]
  exact scanLoop_all_alloc env halloc devs 0 acc

/-- C8 witness: a concrete enumeration of three devices, the first and third
matching the signature, the second not; scan appends the two matches in
order, unopened and bound to the driver. -/
theorem C8_scan_matches_witness :
    scan { devices := some [⟨some (0x1d50, 0x6076)⟩, ⟨some (0xffff, 1)⟩,
                            ⟨some (0x1d50, 0x6076)⟩],
           allocOk := fun _ => true } ⟨7⟩ []
      = (.success, [mkUsbDev ⟨some (0x1d50, 0x6076)⟩,
                    mkUsbDev ⟨some (0x1d50, 0x6076)⟩]) :=
  (C8_scan_matches
    { devices := some [⟨some (0x1d50, 0x6076)⟩, ⟨some (0xffff, 1)⟩,
                       ⟨some (0x1d50, 0x6076)⟩],
      allocOk := fun _ => true } ⟨7⟩
    [⟨some (0x1d50, 0x6076)⟩, ⟨some (0xffff, 1)⟩, ⟨some (0x1d50, 0x6076)⟩]
    [] rfl (fun _ => rfl)).trans (by decide)

/-- C10: when the enumeration call of the transport reports a negative
device count, scan returns QIPROG_SUCCESS with nothing appended, the same
result as an enumeration that reports zero attached devices. -/
theorem C10_scan_enum_failure (env : UsbEnv) (c : Context)
    (acc : List QiprogDevice) (alloc : Nat → Bool)
    (henum : env.devices = none) :
    scan env c acc = (.success, acc)
  ∧ scan { devices := some [], allocOk := alloc } c acc = (.success, acc) := by
  constructor
  · simp [scan, henum]
  · simp [scan, scanLoop]

/-- C10 witness: the enumeration-failure case and the zero-device case
evaluated concretely give the same successful empty outcome. -/
theorem C10_scan_enum_failure_witness :
    scan { devices := none, allocOk := fun _ => true } ⟨3⟩ []
      = (.success, [])
  ∧ scan { devices := some [], allocOk := fun _ => true } ⟨3⟩ []
      = (.success, []) :=
  C10_scan_enum_failure { devices := none, allocOk := fun _ => true } ⟨3⟩ []
    (fun _ => true) rfl

/-- C6: device discovery with a NULL context returns count 0 with the
output list parameter untouched; a failed registry initialisation likewise
returns count 0 with the output untouched; and both counts coincide with
the count of the legitimate no-devices-attached outcome. -/
theorem C6_discovery_empty (env : UsbEnv) (tr : Transport) (initOk : Bool)
    (c : Context) (alloc : Nat → Bool) :
    qiprog_get_device_list env tr initOk none = (0, none)
  ∧ qiprog_get_device_list env tr false (some c) = (0, none)
  ∧ qiprog_get_device_list { devices := some [], allocOk := alloc } tr true
      (some c) = (0, some [])
  ∧ (qiprog_get_device_list env tr initOk none).1
      = (qiprog_get_device_list { devices := some [], allocOk := alloc } tr
          true (some c)).1 :=
  ⟨rfl, rfl, rfl, rfl⟩

/-- A scan member together with the fixed sequence of devices it appends:
appending to the tail of whatever list it is handed, as dev_list_append
does. -/
def AppendOnly (c : Context)
    (s : Context → List QiprogDevice → QiprogErr × List QiprogDevice)
    (out : List QiprogDevice) : Prop :=
  ∀ acc, (s c acc).2 = acc ++ out

/-- A driver vtable whose only populated member is scan; used to exercise
the discovery loop on several backends. -/
def scanOnlyDriver
    (s : Context → List QiprogDevice → QiprogErr × List QiprogDevice) :
    QiprogDriver :=
  ⟨some s, none, none, none, none, none, none, none, none, none, none, none⟩

/-- A driver vtable with no scan member at all. -/
def noScanDriver : QiprogDriver :=
  ⟨none, none, none, none, none, none, none, none, none, none, none, none⟩

/-- C7: the discovery loop walks the compiled-in backend list in its fixed
order; a backend with a NULL scan member is skipped without aborting the
remaining backends; every other backend appends its own results, so the
final list is the concatenation of the per-backend results in registration
order, each preserving its internal scan order.  The second conjunct ties
the loop to qiprog_get_device_list, which runs it on driver_list starting
from the empty registry. -/
theorem C7_discovery_order (c : Context)
    (ds : List (QiprogDriver × List QiprogDevice))
    (acc : List QiprogDevice) (env : UsbEnv) (tr : Transport)
    (h : ∀ p ∈ ds, ∀ s, p.1.scan = some s → AppendOnly c s p.2) :
    get_device_list_loop c (ds.map Prod.fst) acc
      = acc ++ ((ds.filter (fun p => p.1.scan.isSome)).map Prod.snd).flatten
  ∧ qiprog_get_device_list env tr true (some c)
      = ((get_device_list_loop c (driver_list env tr) []).length,
         some (get_device_list_loop c (driver_list env tr) [])) := by
  refine ⟨?_, rfl⟩
  induction ds generalizing acc with
  | nil => simp [get_device_list_loop]
  | cons p rest ih =>
    rcases hs : p.1.scan with _ | s
    · simp only [List.map_cons, get_device_list_loop, hs, List.filter_cons,
        Option.isSome_none, Bool.false_eq_true, if_false]
      exact ih acc (fun q hq => h q (List.mem_cons_of_mem p hq))
    · have happ : (s c acc).2 = acc ++ p.2 :=
        h p (List.mem_cons_self p rest) s hs acc
      simp only [List.map_cons, get_device_list_loop, hs, List.filter_cons,
        Option.isSome_some, if_true, List.flatten_cons, happ]
      rw [ih (acc ++ p.2) (fun q hq => h q (List.mem_cons_of_mem p hq)),
        List.append_assoc]

/-- C7 witness: three backends, the first with no scan member, the second
appending one device, the third appending two; the loop returns the three
devices in backend order, scan order preserved. -/
theorem C7_discovery_order_witness :
    get_device_list_loop ⟨1⟩
      [noScanDriver,
       scanOnlyDriver (fun _ acc => (.err, acc ++ [mkUsbDev ⟨none⟩])),
       scanOnlyDriver (fun _ acc =>
         (.success, acc ++ [mkUsbDev ⟨some (1, 2)⟩, mkUsbDev ⟨some (3, 4)⟩]))]
      []
      = [mkUsbDev ⟨none⟩, mkUsbDev ⟨some (1, 2)⟩, mkUsbDev ⟨some (3, 4)⟩] := by
  have h := (C7_discovery_order ⟨1⟩
    [(noScanDriver, []),
     (scanOnlyDriver (fun _ acc => (.err, acc ++ [mkUsbDev ⟨none⟩])),
      [mkUsbDev ⟨none⟩]),
     (scanOnlyDriver (fun _ acc =>
        (.success, acc ++ [mkUsbDev ⟨some (1, 2)⟩, mkUsbDev ⟨some (3, 4)⟩])),
      [mkUsbDev ⟨some (1, 2)⟩, mkUsbDev ⟨some (3, 4)⟩])]
    [] { devices := none, allocOk := fun _ => true }
    { openDevice := fun _ => none, claimResult := fun _ => 0,
      respond := fun _ => (0, []) }
    (by
      intro p hp s hs acc
      simp only [List.mem_cons, List.not_mem_nil, or_false] at hp
      rcases hp with rfl | rfl | rfl
      · simp [noScanDriver] at hs
      · simp only [scanOnlyDriver, Option.some.injEq] at hs
        subst hs
        rfl
      · simp only [scanOnlyDriver, Option.some.injEq] at hs
        subst hs
        rfl)).1
  simpa using h

/-- A libusb device carrying the OpenMoko VultureProg signature. -/
def vultureDev : LibusbDevice :=
  ⟨some (USB_VID_OPENMOKO, USB_PID_OPENMOKO_VULTUREPROG)⟩

/-- A libusb world with two matching devices where the second device
construction fails on allocation: scan errors out partway through. -/
def envPartialFail : UsbEnv :=
  { devices := some [vultureDev, vultureDev], allocOk := fun n => n == 0 }

/-- A libusb world with one matching device and no failures: scan
succeeds. -/
def envOneOk : UsbEnv :=
  { devices := some [vultureDev], allocOk := fun _ => true }

/-- C9: discovery discards the status returned by each scan.  For every
libusb world the returned pair depends only on the device-list component of
the scan result, never on its status; concretely, a scan that fails with
QIPROG_ERR_MALLOC after appending one device and a scan that succeeds with
one device give identical discovery results, the devices appended before
the failure staying in the returned list. -/
theorem C9_scan_status_discarded (env : UsbEnv) (tr : Transport)
    (c : Context) :
    qiprog_get_device_list env tr true (some c)
      = ((scan env c []).2.length, some (scan env c []).2)
  ∧ (scan envPartialFail c []).1 = .err_malloc
  ∧ (scan envOneOk c []).1 = .success
  ∧ qiprog_get_device_list envPartialFail tr true (some c)
      = qiprog_get_device_list envOneOk tr true (some c)
  ∧ qiprog_get_device_list envPartialFail tr true (some c)
      = (1, some [mkUsbDev vultureDev]) :=
  ⟨rfl, rfl, rfl, rfl, rfl⟩
